import Mathlib

/-!
Formal model of the kelal-link backend (a FastAPI link-shortening and
link-in-bio service).  The definitions below are a shallow embedding of
`app/utils/amharic.py`, `app/models.py` and the handlers in `app/main.py`:
the slug codec, the redirect decision engine, the bundle authorization
resolver, drop creation, token join and the analytics aggregation.
Database rows are plain Lean structures, queries are list operations, and
Python truthiness is modelled explicitly where the source relies on it.
-/

namespace KelalLink

/-! ## Identifier codec (`app/utils/amharic.py`) -/

/-- The fixed alphabet of the codec, exactly the string literal
`ALPHABET` in `app/utils/amharic.py`. -/
def ALPHABET : List Char := "ሀለሐመሠረሰሸቀበተቸኀነኘአከኸወዐዘዠየደጀገጠጨጰጸፀፈፐ".toList

/-- `BASE = len(ALPHABET)`. -/
def BASE : Nat := ALPHABET.length

theorem BASE_eq : BASE = 33 := by decide

/-- Position of a character in the alphabet (`ALPHABET.index(char)`;
Python raises on a missing character, here the list length is returned,
which never happens on codec output). -/
def alphabetIndex (c : Char) : Nat := ALPHABET.findIdx (fun x => x == c)

/-- The divmod loop of `encode`, emitting least-significant digit first.
The loop value strictly decreases, so `n` iterations always suffice; the
explicit bound keeps the function computable by kernel reduction. -/
def encodeAuxFuel : Nat → Nat → List Char
  | 0, _ => []
  | fuel + 1, n =>
    if n = 0 then [] else ALPHABET.getD (n % BASE) 'ሀ' :: encodeAuxFuel fuel (n / BASE)

def encodeAux (n : Nat) : List Char := encodeAuxFuel n n

/-- `encode` from `app/utils/amharic.py`: base-`BASE` positional encoding,
digits reversed so the most significant digit comes first. -/
def encode (num : Nat) : String :=
  if num = 0 then String.mk [ALPHABET.getD 0 'ሀ']
  else String.mk (encodeAux num).reverse

/-- Horner accumulation over a digit list, the body of `decode`. -/
def decodeList (s : List Char) : Nat :=
  s.foldl (fun num c => num * BASE + alphabetIndex c) 0

/-- `decode` from `app/utils/amharic.py`. -/
def decode (slug : String) : Nat := decodeList slug.toList

theorem alphabetIndex_getD : ∀ k, k < BASE → alphabetIndex (ALPHABET.getD k 'ሀ') = k := by
  decide

theorem encodeAux_ne_nil {n : Nat} (h : n ≠ 0) : encodeAux n ≠ [] := by
  obtain ⟨m, rfl⟩ := Nat.exists_eq_succ_of_ne_zero h
  unfold encodeAux encodeAuxFuel
  simp

theorem decodeList_encodeAuxFuel_rev (fuel : Nat) :
    ∀ n, n ≤ fuel → decodeList (encodeAuxFuel fuel n).reverse = n := by
  induction fuel with
  | zero =>
    intro n hn
    interval_cases n
    simp [encodeAuxFuel, decodeList]
  | succ fuel ih =>
    intro n hn
    by_cases h : n = 0
    · subst h
      simp [encodeAuxFuel, decodeList]
    · unfold encodeAuxFuel
      simp only [h, ite_false, List.reverse_cons]
      have hmod : n % BASE < BASE := Nat.mod_lt _ (by decide)
      have hdiv : n / BASE < n := Nat.div_lt_self (Nat.pos_of_ne_zero h) (by decide)
      have hrec := ih (n / BASE) (by omega)
      unfold decodeList at hrec ⊢
      rw [List.foldl_append]
      simp only [List.foldl_cons, List.foldl_nil]
      rw [hrec, alphabetIndex_getD _ hmod]
      have := Nat.div_add_mod n BASE
      rw [BASE_eq] at this ⊢
      omega

theorem decodeList_encodeAux_rev (n : Nat) : decodeList (encodeAux n).reverse = n :=
  decodeList_encodeAuxFuel_rev n n (Nat.le_refl n)

theorem decode_encode (n : Nat) : decode (encode n) = n := by
  unfold decode encode
  by_cases h : n = 0
  · subst h; decide
  · simp only [h, ite_false]
    have : (String.mk (encodeAux n).reverse).toList = (encodeAux n).reverse := rfl
    rw [this, decodeList_encodeAux_rev]

theorem encode_ne_empty (n : Nat) : encode n ≠ "" := by
  unfold encode
  by_cases h : n = 0
  · simp only [h, ite_true]; decide
  · simp only [h, ite_false]
    intro hc
    have hdata : (encodeAux n).reverse = ([] : List Char) := by
      have := congrArg String.toList hc
      exact this
    have : encodeAux n = [] := by
      have := congrArg List.reverse hdata
      simpa using this
    exact encodeAux_ne_nil h this

/-- C3 (amended: the fixed alphabet has 33 characters, not 34).  For every
non-negative integer `n`, `decode (encode n) = n`; `encode 0` is exactly the
one-character string holding the first alphabet character; and `encode`
never returns the empty string. -/
theorem c3_codec_roundtrip :
    (∀ n : Nat, decode (encode n) = n)
    ∧ encode 0 = String.mk [ALPHABET.getD 0 'ሀ']
    ∧ (encode 0).length = 1
    ∧ (∀ n : Nat, encode n ≠ "")
    ∧ BASE = 33 :=
  ⟨decode_encode, by decide, by decide, encode_ne_empty, BASE_eq⟩

/-- C3 counterexample to the claim as stated: the configured alphabet does
not have 34 characters. -/
theorem c3_counterexample : ALPHABET.length ≠ 34 := by decide

/-! ## Python truthiness helpers

The handlers in `app/main.py` branch on Python truthiness of nullable
columns and request fields; these helpers reproduce it exactly: `None` and
`""` are falsy for strings, `None` and `0` for integers, a datetime is
falsy only when `None`. -/

def optStrTruthy : Option String → Bool
  | none => false
  | some s => s != ""

def optNatTruthy : Option Nat → Bool
  | none => false
  | some n => n != 0

def optIntTruthy : Option Int → Bool
  | none => false
  | some n => n != 0

/-- Python `a or b` where `a` is a nullable string: falls through on
`None` and on the empty string. -/
def pyOrOpt (a : Option String) (b : String) : String :=
  match a with
  | some s => if s = "" then b else s
  | none => b

/-- Python `a or b` for plain strings. -/
def pyOrStr (a b : String) : String := if a = "" then b else a

/-! ## Data model (`app/models.py`)

Rows are structures; the surrogate `id` columns are kept where a handler
reads them.  `Click` rows and `Collaboration` rows appear further below
with the operations that use them. -/

structure URLDrop where
  id : Nat
  userId : Option Nat := none
  longUrl : String
  slug : String
  clicks : Nat := 0
  isCloaked : Bool := false
  maxClicks : Option Nat := none
  expiresAt : Option Int := none
  password : Option String := none
  metaTitle : Option String := none
  metaDescription : Option String := none
deriving Repr, DecidableEq

structure BundleItem where
  label : String
  url : String
deriving Repr, DecidableEq

structure BundleDrop where
  id : Nat
  userId : Option Nat := none
  slug : String
  title : String
  description : Option String := none
  items : List BundleItem := []
  themeColor : String := "#00f2ff"
  bgColor : String := "#0a0a0a"
  textColor : String := "#888888"
  titleColor : String := "#ffffff"
  cardColor : String := "rgba(255,255,255,0.05)"
  bgImage : Option String := none
  profileImage : Option String := none
  accessLevel : String := "restricted"
  clicks : Nat := 0
  isCloaked : Bool := false
  maxClicks : Option Nat := none
  expiresAt : Option Int := none
  password : Option String := none
  metaTitle : Option String := none
  metaDescription : Option String := none
  managerToken : Option String := none
  analystToken : Option String := none
deriving Repr, DecidableEq

/-- The relational store: the `urls` and `bundles` tables plus their
autoincrement counters. -/
structure Store where
  urls : List URLDrop := []
  bundles : List BundleDrop := []
  nextUrlId : Nat := 1
  nextBundleId : Nat := 1
deriving Repr, DecidableEq

/-- The `FRONTEND_URL` configuration value (its default). -/
def FRONTEND_URL : String := "http://localhost:3000"

/-- SHA-256 modelled abstractly as an injective tagging function; no
claim in this development depends on the value of a hash, only on whether
the stored field changes. -/
def sha256hex (s : String) : String := "sha256(" ++ s ++ ")"

/-! ## Redirect decision engine (`redirect_url` in `app/main.py`) -/

/-- Bot signatures checked by substring against the lowercased user agent. -/
def BOT_SIGNATURES : List String :=
  ["bot", "crawler", "spider", "whatsapp", "telegram", "facebook", "slack", "discord"]

/-- Per-character lowercasing, matching `str.lower()` on the ASCII inputs
these handlers compare against. -/
def strLower (s : String) : String := String.mk (s.toList.map Char.toLower)

/-- Contiguous-sublist test over character lists. -/
def listContainsSub (pat : List Char) : List Char → Bool
  | [] => pat.isEmpty
  | c :: rest => pat.isPrefixOf (c :: rest) || listContainsSub pat rest

/-- Python `pat in s` substring test. -/
def containsSub (s pat : String) : Bool := listContainsSub pat.toList s.toList

def isBotUA (uaLower : String) : Bool :=
  BOT_SIGNATURES.any (fun b => containsSub uaLower b)

/-- Reserved path segments guarded at the top of `redirect_url`. -/
def RESERVED_EXACT : List String := ["api", "studio", "create", "dashboard", "stats"]

def reservedSlug (slug : String) : Bool :=
  ("admin".toList.isPrefixOf (strLower slug).toList) || RESERVED_EXACT.contains (strLower slug)

/-- Python `x.expires_at and x.expires_at < now` (a datetime is truthy
whenever present). -/
def isPast (expiresAt : Option Int) (now : Int) : Bool :=
  match expiresAt with
  | none => false
  | some e => decide (e < now)

/-- Python `x.max_clicks and x.clicks >= x.max_clicks`: a cap of `0` (or
`None`) is falsy and disables the check. -/
def capReached (maxClicks : Option Nat) (clicks : Nat) : Bool :=
  match maxClicks with
  | none => false
  | some m => (m != 0) && decide (m ≤ clicks)

inductive Outcome where
  | notFound
  | expired
  | cloakPage (title desc : String)
  | unlockRequired (url : String)
  | metaPreview (title desc target : String)
  | plainRedirect (target : String)
deriving Repr, DecidableEq

def Outcome.isResolve : Outcome → Bool
  | .metaPreview _ _ _ => true
  | .plainRedirect _ => true
  | _ => false

def Outcome.isCloak : Outcome → Bool
  | .cloakPage _ _ => true
  | _ => false

/-- What the handler sends back: the chosen outcome, whether the response
carries a `Referrer-Policy: no-referrer` header, and whether a click was
counted (counter increment plus background `track_click`). -/
structure ResolveResult where
  outcome : Outcome
  noReferrer : Bool
  clickRecorded : Bool
deriving Repr, DecidableEq

def bundleTarget (slug : String) : String := FRONTEND_URL ++ "/bundle/" ++ slug

def unlockTarget (slug : String) : String := FRONTEND_URL ++ "/unlock/" ++ slug

def bundleCloakTitle (b : BundleDrop) : String :=
  pyOrOpt b.metaTitle (pyOrStr b.title "ቀላል Link - Studio")

def bundleCloakDesc (b : BundleDrop) : String :=
  pyOrOpt b.metaDescription (pyOrOpt b.description "Professional Identity Studio")

/-- The bundle branch of `redirect_url` (`app/main.py` lines 836-884). -/
def resolveBundle (b : BundleDrop) (isBot : Bool) (now : Int) : ResolveResult × BundleDrop :=
  if isPast b.expiresAt now || capReached b.maxClicks b.clicks then
    (⟨.expired, false, false⟩, b)
  else if b.isCloaked && isBot then
    (⟨.cloakPage (bundleCloakTitle b) (bundleCloakDesc b), false, false⟩, b)
  else if optStrTruthy b.password then
    (⟨.unlockRequired (unlockTarget b.slug), false, false⟩, b)
  else if optStrTruthy b.metaTitle || optStrTruthy b.metaDescription then
    (⟨.metaPreview (bundleCloakTitle b) (bundleCloakDesc b) (bundleTarget b.slug), false, true⟩,
      { b with clicks := b.clicks + 1 })
  else
    (⟨.plainRedirect (bundleTarget b.slug), b.isCloaked, true⟩, { b with clicks := b.clicks + 1 })

def urlCloakTitle (u : URLDrop) : String := pyOrOpt u.metaTitle "ቀላል Link"

def urlCloakDesc (u : URLDrop) : String := pyOrOpt u.metaDescription "Secure Studio Drop"

/-- The single-URL branch of `redirect_url` (`app/main.py` lines 887-928). -/
def resolveURL (u : URLDrop) (isBot : Bool) (now : Int) : ResolveResult × URLDrop :=
  if isPast u.expiresAt now || capReached u.maxClicks u.clicks then
    (⟨.expired, false, false⟩, u)
  else if u.isCloaked && isBot then
    (⟨.cloakPage (urlCloakTitle u) (urlCloakDesc u), false, false⟩, u)
  else if optStrTruthy u.password then
    (⟨.unlockRequired (unlockTarget u.slug), false, false⟩, u)
  else if optStrTruthy u.metaTitle || optStrTruthy u.metaDescription then
    (⟨.metaPreview (urlCloakTitle u) (urlCloakDesc u) u.longUrl, false, true⟩,
      { u with clicks := u.clicks + 1 })
  else
    (⟨.plainRedirect u.longUrl, u.isCloaked, true⟩, { u with clicks := u.clicks + 1 })

/-- A drop is either a bundle or a single URL; `redirect_url` looks the
slug up in the bundles table first, then in the urls table. -/
inductive Drop where
  | url (u : URLDrop)
  | bundle (b : BundleDrop)
deriving Repr, DecidableEq

def Drop.clicks : Drop → Nat
  | .url u => u.clicks
  | .bundle b => b.clicks

def Drop.password : Drop → Option String
  | .url u => u.password
  | .bundle b => b.password

def Drop.isCloaked : Drop → Bool
  | .url u => u.isCloaked
  | .bundle b => b.isCloaked

def Drop.maxClicks : Drop → Option Nat
  | .url u => u.maxClicks
  | .bundle b => b.maxClicks

def Drop.expiresAt : Drop → Option Int
  | .url u => u.expiresAt
  | .bundle b => b.expiresAt

def Drop.slug : Drop → String
  | .url u => u.slug
  | .bundle b => b.slug

def expiredOrCappedDrop (d : Drop) (now : Int) : Bool :=
  isPast d.expiresAt now || capReached d.maxClicks d.clicks

def lookupDrop (store : Store) (slug : String) : Option Drop :=
  match store.bundles.find? (fun b => b.slug == slug) with
  | some b => some (.bundle b)
  | none => (store.urls.find? (fun u => u.slug == slug)).map .url

def resolveDrop (d : Drop) (isBot : Bool) (now : Int) : ResolveResult × Drop :=
  match d with
  | .url u =>
    let p := resolveURL u isBot now
    (p.1, .url p.2)
  | .bundle b =>
    let p := resolveBundle b isBot now
    (p.1, .bundle p.2)

/-- `redirect_url` (`app/main.py` lines 823-928): reserved-slug guard,
bot detection, bundle-then-URL lookup, then the per-drop decision chain.
Returns the response and the updated drop (`none` when nothing was found
or the store was never consulted). -/
def resolve_and_redirect (store : Store) (slug ua : String) (now : Int) :
    ResolveResult × Option Drop :=
  if reservedSlug slug then (⟨.notFound, false, false⟩, none)
  else
    let isBot := isBotUA (strLower ua)
    match lookupDrop store slug with
    | none => (⟨.notFound, false, false⟩, none)
    | some d =>
      let p := resolveDrop d isBot now
      (p.1, some p.2)

/-- On a non-reserved slug whose lookup succeeds, the handler result is
the per-drop decision. -/
theorem resolve_eq_of_found {store : Store} {slug ua : String} {now : Int} {d : Drop}
    (hres : reservedSlug slug = false) (hfind : lookupDrop store slug = some d) :
    resolve_and_redirect store slug ua now
      = ((resolveDrop d (isBotUA (strLower ua)) now).1,
         some (resolveDrop d (isBotUA (strLower ua)) now).2) := by
  unfold resolve_and_redirect
  simp [hres, hfind]

/-- C10: for every slug whose lowercase form starts with "admin" or equals
one of "api", "studio", "create", "dashboard", "stats", `redirect_url`
returns not-found without consulting the store — the result is the same
for every store, so a drop stored under such a slug is unreachable through
the redirect path. -/
theorem c10_reserved_slugs (store : Store) (slug ua : String) (now : Int)
    (hres : reservedSlug slug = true) :
    (resolve_and_redirect store slug ua now).1 = ⟨Outcome.notFound, false, false⟩
    ∧ (resolve_and_redirect store slug ua now).2 = none
    ∧ ∀ store' : Store,
        resolve_and_redirect store slug ua now = resolve_and_redirect store' slug ua now := by
  unfold resolve_and_redirect
  simp [hres]

def u10 : URLDrop := { id := 1, longUrl := "https://example.com", slug := "admin-panel" }

def store10 : Store := { urls := [u10] }

/-- C10 witness: a stored drop with slug "admin-panel" is still answered
with not-found. -/
theorem c10_reserved_slugs_witness :
    (resolve_and_redirect store10 "admin-panel" "Mozilla/5.0" 0).1
      = ⟨Outcome.notFound, false, false⟩
    ∧ lookupDrop store10 "admin-panel" = some (Drop.url u10) :=
  ⟨(c10_reserved_slugs store10 "admin-panel" "Mozilla/5.0" 0 (by decide)).1, by decide⟩

/-- C1 (amended): a drop whose password is set never reaches a resolve
outcome (meta preview or plain redirect) and never records a click; when
the drop is neither expired/capped nor cloak-matched by the user agent, the
outcome is exactly the unlock redirect.  The cloak page and the expiry
check, however, precede the unlock redirect, so a cloaked password-protected
drop hit by a bot user agent shows the cloak page. -/
theorem c1_password_gate (store : Store) (slug ua : String) (now : Int) (d : Drop)
    (hres : reservedSlug slug = false)
    (hfind : lookupDrop store slug = some d)
    (hpwd : optStrTruthy d.password = true) :
    Outcome.isResolve (resolve_and_redirect store slug ua now).1.outcome = false
    ∧ (resolve_and_redirect store slug ua now).1.clickRecorded = false
    ∧ (expiredOrCappedDrop d now = false →
        (d.isCloaked && isBotUA (strLower ua)) = false →
        (resolve_and_redirect store slug ua now).1.outcome
          = Outcome.unlockRequired (unlockTarget d.slug)) := by
  rw [resolve_eq_of_found hres hfind]
  cases d with
  | url u =>
    simp only [Drop.password] at hpwd
    simp only [resolveDrop, expiredOrCappedDrop, Drop.expiresAt, Drop.maxClicks,
      Drop.clicks, Drop.isCloaked, Drop.slug]
    by_cases g1 : (isPast u.expiresAt now || capReached u.maxClicks u.clicks) = true <;>
      by_cases g2 : (u.isCloaked && isBotUA (strLower ua)) = true <;>
        simp [resolveURL, g1, g2, hpwd, Outcome.isResolve]
  | bundle b =>
    simp only [Drop.password] at hpwd
    simp only [resolveDrop, expiredOrCappedDrop, Drop.expiresAt, Drop.maxClicks,
      Drop.clicks, Drop.isCloaked, Drop.slug]
    by_cases g1 : (isPast b.expiresAt now || capReached b.maxClicks b.clicks) = true <;>
      by_cases g2 : (b.isCloaked && isBotUA (strLower ua)) = true <;>
        simp [resolveBundle, g1, g2, hpwd, Outcome.isResolve]

def b1c : BundleDrop :=
  { id := 1, slug := "pwcloak", title := "T", password := some "x", isCloaked := true }

def store1c : Store := { bundles := [b1c] }

/-- C1 counterexample to the claim as stated: a bundle with a password set
and `is_cloaked` true, requested with a WhatsApp user agent, reaches the
`CloakPage` outcome — the unlock redirect does not take precedence over the
cloak check. -/
theorem c1_counterexample :
    optStrTruthy (Drop.bundle b1c).password = true
    ∧ (resolve_and_redirect store1c "pwcloak" "WhatsApp/2.23" 0).1.outcome
        = Outcome.cloakPage "T" "Professional Identity Studio" := by
  exact ⟨by decide, by decide⟩

def u1w : URLDrop :=
  { id := 1, longUrl := "https://example.com", slug := "pwu", password := some "h" }

def store1w : Store := { urls := [u1w] }

/-- C1 witness: a password-protected, non-cloaked URL drop is answered with
the unlock redirect. -/
theorem c1_password_gate_witness :
    (resolve_and_redirect store1w "pwu" "Mozilla/5.0" 0).1.outcome
      = Outcome.unlockRequired (unlockTarget "pwu") := by
  have h := c1_password_gate store1w "pwu" "Mozilla/5.0" 0 (Drop.url u1w)
    (by decide) (by decide) (by decide)
  exact h.2.2 (by decide) (by decide)

/-- C2 (amended): the cap behaves as claimed for every cap `N >= 1` on a
drop that is not expired, has no password and is not cloak-matched; a cap
of `0` is falsy in the source and is treated as no cap at all, so the
`N = 0` case of the claim fails. -/
theorem c2_click_cap (store : Store) (slug ua : String) (now : Int) (d : Drop) (N : Nat)
    (hres : reservedSlug slug = false)
    (hfind : lookupDrop store slug = some d)
    (hN : d.maxClicks = some N) (hNpos : 1 ≤ N)
    (hexp : isPast d.expiresAt now = false)
    (hpwd : optStrTruthy d.password = false)
    (hcloak : (d.isCloaked && isBotUA (strLower ua)) = false) :
    (d.clicks < N →
        Outcome.isResolve (resolve_and_redirect store slug ua now).1.outcome = true
        ∧ (resolve_and_redirect store slug ua now).1.clickRecorded = true
        ∧ (resolve_and_redirect store slug ua now).2.map Drop.clicks = some (d.clicks + 1))
    ∧ (N ≤ d.clicks →
        (resolve_and_redirect store slug ua now).1.outcome = Outcome.expired
        ∧ (resolve_and_redirect store slug ua now).1.clickRecorded = false
        ∧ (resolve_and_redirect store slug ua now).2.map Drop.clicks = some d.clicks) := by
  rw [resolve_eq_of_found hres hfind]
  cases d with
  | url u =>
    simp only [Drop.maxClicks] at hN
    simp only [Drop.expiresAt] at hexp
    simp only [Drop.password] at hpwd
    simp only [Drop.isCloaked] at hcloak
    simp only [Drop.clicks]
    constructor
    · intro hlt
      have hcap : capReached u.maxClicks u.clicks = false := by
        simp only [capReached, hN]
        simp
        omega
      by_cases g4 : (optStrTruthy u.metaTitle || optStrTruthy u.metaDescription) = true <;>
        simp [resolveDrop, resolveURL, hexp, hcap, hcloak, hpwd, g4, Outcome.isResolve, Drop.clicks]
    · intro hge
      have hcap : capReached u.maxClicks u.clicks = true := by
        simp only [capReached, hN]
        simp
        omega
      simp [resolveDrop, resolveURL, hexp, hcap, Drop.clicks]
  | bundle b =>
    simp only [Drop.maxClicks] at hN
    simp only [Drop.expiresAt] at hexp
    simp only [Drop.password] at hpwd
    simp only [Drop.isCloaked] at hcloak
    simp only [Drop.clicks]
    constructor
    · intro hlt
      have hcap : capReached b.maxClicks b.clicks = false := by
        simp only [capReached, hN]
        simp
        omega
      by_cases g4 : (optStrTruthy b.metaTitle || optStrTruthy b.metaDescription) = true <;>
        simp [resolveDrop, resolveBundle, hexp, hcap, hcloak, hpwd, g4, Outcome.isResolve, Drop.clicks]
    · intro hge
      have hcap : capReached b.maxClicks b.clicks = true := by
        simp only [capReached, hN]
        simp
        omega
      simp [resolveDrop, resolveBundle, hexp, hcap, Drop.clicks]

def u2c : URLDrop :=
  { id := 1, longUrl := "https://example.com/a", slug := "capzero", maxClicks := some 0 }

def store2c : Store := { urls := [u2c] }

/-- C2 counterexample to the claim as stated: with `max_clicks = 0` and
`clicks = 0` (so `clicks >= max_clicks`), the claim demands `Expired`, but
the code resolves the drop. -/
theorem c2_counterexample :
    u2c.maxClicks = some 0
    ∧ (resolve_and_redirect store2c "capzero" "Mozilla/5.0" 0).1.outcome
        = Outcome.plainRedirect "https://example.com/a"
    ∧ (resolve_and_redirect store2c "capzero" "Mozilla/5.0" 0).1.outcome ≠ Outcome.expired :=
  ⟨by decide, by decide, by decide⟩

def u2w : URLDrop :=
  { id := 2, longUrl := "https://example.com/w", slug := "capw", maxClicks := some 3, clicks := 1 }

def store2w : Store := { urls := [u2w] }

/-- C2 witness: a drop with cap 3 and 1 click resolves and its counter
moves to 2. -/
theorem c2_click_cap_witness :
    Outcome.isResolve (resolve_and_redirect store2w "capw" "Mozilla/5.0" 0).1.outcome = true
    ∧ (resolve_and_redirect store2w "capw" "Mozilla/5.0" 0).2.map Drop.clicks = some 2 := by
  have h := c2_click_cap store2w "capw" "Mozilla/5.0" 0 (Drop.url u2w) 3
    (by decide) (by decide) (by decide) (by decide) (by decide) (by decide) (by decide)
  exact ⟨(h.1 (by decide)).1, (h.1 (by decide)).2.2⟩

/-- C4 (amended): for a cloaked drop the no-referrer header is set exactly
on the plain-redirect rendering path; the meta-preview HTML rendering does
not carry it. -/
theorem c4_referrer_policy (store : Store) (slug ua : String) (now : Int) (d : Drop)
    (hres : reservedSlug slug = false)
    (hfind : lookupDrop store slug = some d)
    (hcloak : d.isCloaked = true) :
    (∀ t, (resolve_and_redirect store slug ua now).1.outcome = Outcome.plainRedirect t →
        (resolve_and_redirect store slug ua now).1.noReferrer = true)
    ∧ (∀ t ds tg,
        (resolve_and_redirect store slug ua now).1.outcome = Outcome.metaPreview t ds tg →
        (resolve_and_redirect store slug ua now).1.noReferrer = false) := by
  rw [resolve_eq_of_found hres hfind]
  cases d with
  | url u =>
    simp only [Drop.isCloaked] at hcloak
    by_cases g1 : (isPast u.expiresAt now || capReached u.maxClicks u.clicks) = true <;>
      by_cases hb : isBotUA (strLower ua) = true <;>
        by_cases g3 : optStrTruthy u.password = true <;>
          by_cases g4 : (optStrTruthy u.metaTitle || optStrTruthy u.metaDescription) = true <;>
            simp [resolveDrop, resolveURL, g1, hb, g3, g4, hcloak]
  | bundle b =>
    simp only [Drop.isCloaked] at hcloak
    by_cases g1 : (isPast b.expiresAt now || capReached b.maxClicks b.clicks) = true <;>
      by_cases hb : isBotUA (strLower ua) = true <;>
        by_cases g3 : optStrTruthy b.password = true <;>
          by_cases g4 : (optStrTruthy b.metaTitle || optStrTruthy b.metaDescription) = true <;>
            simp [resolveDrop, resolveBundle, g1, hb, g3, g4, hcloak]

def u4c : URLDrop :=
  { id := 1, longUrl := "https://e.com", slug := "metacloak", isCloaked := true,
    metaTitle := some "T4" }

def store4c : Store := { urls := [u4c] }

/-- C4 counterexample to the claim as stated: a cloaked drop rendered
through the meta-preview path carries no `Referrer-Policy` header. -/
theorem c4_counterexample :
    u4c.isCloaked = true
    ∧ (resolve_and_redirect store4c "metacloak" "Mozilla/5.0" 0).1.outcome
        = Outcome.metaPreview "T4" "Secure Studio Drop" "https://e.com"
    ∧ (resolve_and_redirect store4c "metacloak" "Mozilla/5.0" 0).1.noReferrer = false :=
  ⟨by decide, by decide, by decide⟩

def u4w : URLDrop :=
  { id := 2, longUrl := "https://e.com/w", slug := "plaincloak", isCloaked := true }

def store4w : Store := { urls := [u4w] }

/-- C4 witness: a cloaked drop on the plain-redirect path does carry the
no-referrer header. -/
theorem c4_referrer_policy_witness :
    (resolve_and_redirect store4w "plaincloak" "Mozilla/5.0" 0).1.noReferrer = true := by
  have h := c4_referrer_policy store4w "plaincloak" "Mozilla/5.0" 0 (Drop.url u4w)
    (by decide) (by decide) (by decide)
  exact h.1 "https://e.com/w" (by decide)

/-- C6: on a found, non-expired, non-capped drop the cloak page is chosen
exactly when `is_cloaked` holds and the user agent matches a bot signature;
a non-cloaked drop (even with a bot user agent) never sees the cloak page
and, absent a password, resolves normally; the cloak page records no click,
leaves the drop unchanged, is built from meta title/description only and is
independent of the stored destination URL. -/
theorem c6_cloak_decision (store : Store) (slug ua : String) (now : Int) (d : Drop)
    (hres : reservedSlug slug = false)
    (hfind : lookupDrop store slug = some d)
    (hlive : expiredOrCappedDrop d now = false) :
    (Outcome.isCloak (resolve_and_redirect store slug ua now).1.outcome
        = (d.isCloaked && isBotUA (strLower ua)))
    ∧ (d.isCloaked = false → optStrTruthy d.password = false →
        Outcome.isResolve (resolve_and_redirect store slug ua now).1.outcome = true)
    ∧ ((d.isCloaked && isBotUA (strLower ua)) = true →
        (resolve_and_redirect store slug ua now).1.clickRecorded = false
        ∧ (resolve_and_redirect store slug ua now).2 = some d)
    ∧ (∀ u : URLDrop, d = Drop.url u → (u.isCloaked && isBotUA (strLower ua)) = true →
        ∀ other : String,
          (resolveURL { u with longUrl := other } (isBotUA (strLower ua)) now).1
            = (resolveURL u (isBotUA (strLower ua)) now).1)
    ∧ (∀ b : BundleDrop, d = Drop.bundle b → (b.isCloaked && isBotUA (strLower ua)) = true →
        (resolve_and_redirect store slug ua now).1.outcome
          = Outcome.cloakPage (bundleCloakTitle b) (bundleCloakDesc b))
    ∧ (∀ u : URLDrop, d = Drop.url u → (u.isCloaked && isBotUA (strLower ua)) = true →
        (resolve_and_redirect store slug ua now).1.outcome
          = Outcome.cloakPage (urlCloakTitle u) (urlCloakDesc u)) := by
  rw [resolve_eq_of_found hres hfind]
  cases d with
  | url u =>
    simp only [expiredOrCappedDrop, Drop.expiresAt, Drop.maxClicks, Drop.clicks,
      Bool.or_eq_false_iff] at hlive
    obtain ⟨he, hcap⟩ := hlive
    by_cases hc : u.isCloaked = true <;>
      by_cases hb : isBotUA (strLower ua) = true <;>
        by_cases g3 : optStrTruthy u.password = true <;>
          by_cases g4 : (optStrTruthy u.metaTitle || optStrTruthy u.metaDescription) = true <;>
            simp [resolveDrop, resolveURL, he, hcap, hc, hb, g3, g4, Outcome.isCloak,
              Outcome.isResolve, Drop.isCloaked, Drop.password, urlCloakTitle, urlCloakDesc]
  | bundle b =>
    simp only [expiredOrCappedDrop, Drop.expiresAt, Drop.maxClicks, Drop.clicks,
      Bool.or_eq_false_iff] at hlive
    obtain ⟨he, hcap⟩ := hlive
    by_cases hc : b.isCloaked = true <;>
      by_cases hb : isBotUA (strLower ua) = true <;>
        by_cases g3 : optStrTruthy b.password = true <;>
          by_cases g4 : (optStrTruthy b.metaTitle || optStrTruthy b.metaDescription) = true <;>
            simp [resolveDrop, resolveBundle, he, hcap, hc, hb, g3, g4, Outcome.isCloak,
              Outcome.isResolve, Drop.isCloaked, Drop.password, bundleCloakTitle, bundleCloakDesc]

def b6w : BundleDrop := { id := 1, slug := "cloakb", title := "T6", isCloaked := true }

def store6w : Store := { bundles := [b6w] }

/-- C6 witness: a cloaked bundle fetched with a Telegram user agent gets
the cloak page and stays unchanged. -/
theorem c6_cloak_decision_witness :
    Outcome.isCloak (resolve_and_redirect store6w "cloakb" "TelegramBot 1.0" 0).1.outcome = true
    ∧ (resolve_and_redirect store6w "cloakb" "TelegramBot 1.0" 0).2 = some (Drop.bundle b6w) := by
  have h := c6_cloak_decision store6w "cloakb" "TelegramBot 1.0" 0 (Drop.bundle b6w)
    (by decide) (by decide) (by decide)
  refine ⟨?_, (h.2.2.1 (by decide)).2⟩
  rw [h.1]
  decide

/-! ## Authorization resolver and bundle editing (`update_bundle`, `join_bundle`) -/

/-- A `collaborations` row.  `bundleId = none` is a global grant over the
owner's whole account.  The surrogate id column is not read by the
modelled handlers and is omitted. -/
structure Collab where
  ownerId : Nat
  collaboratorId : Nat
  bundleId : Option Nat := none
  role : String := "manager"
deriving Repr, DecidableEq

/-- Owner ids of all global collaborations of a user (`bundle_id IS NULL`,
`collaborator_id = uid`). -/
def globalOwnerIds (uid : Nat) (collabs : List Collab) : List Nat :=
  (collabs.filter (fun c => c.collaboratorId == uid && c.bundleId == none)).map
    (fun c => c.ownerId)

/-- `all_eligible_owner_ids`: the requester plus global-collaboration
owners; empty when the requester is anonymous (Python truthiness of the
user id). -/
def eligibleOwnerIds (userId? : Option Nat) (collabs : List Collab) : List Nat :=
  match userId? with
  | some uid => if uid == 0 then [] else uid :: globalOwnerIds uid collabs
  | none => []

/-- Membership of a nullable column value in a list of ids (Python `in`;
`None` is never a member). -/
def optMem (x : Option Nat) (l : List Nat) : Bool :=
  match x with
  | some v => l.contains v
  | none => false

/-- Role resolution of `update_bundle` (`app/main.py` lines 509-538):
owner by direct id equality, manager via the eligible-owner pool, else the
bundle-specific collaboration row's role, else no role. -/
def resolveBundleRole (userId? : Option Nat) (b : BundleDrop) (collabs : List Collab) :
    Option String :=
  let eligible := eligibleOwnerIds userId? collabs
  let isAuth := optMem b.userId eligible
  let role0 : Option String :=
    if b.userId == userId? then some "owner"
    else if isAuth then some "manager"
    else none
  if !isAuth && optNatTruthy userId? then
    match collabs.find? (fun c => some c.collaboratorId == userId? && c.bundleId == some b.id) with
    | some c => some c.role
    | none => role0
  else role0

/-- The `BundleUpdate` request schema (`app/schemas.py`). -/
structure BundleUpdate where
  customSlug : Option String := none
  title : Option String := none
  description : Option String := none
  items : Option (List BundleItem) := none
  themeColor : Option String := none
  bgColor : Option String := none
  textColor : Option String := none
  titleColor : Option String := none
  cardColor : Option String := none
  bgImage : Option String := none
  profileImage : Option String := none
  maxClicks : Option Nat := none
  expiresAt : Option Int := none
  password : Option String := none
  metaTitle : Option String := none
  metaDescription : Option String := none
  isCloaked : Option Bool := none
  accessLevel : Option String := none
deriving Repr, DecidableEq

def slugTaken (store : Store) (slug : String) : Bool :=
  (store.urls.any (fun u => u.slug == slug)) || (store.bundles.any (fun b => b.slug == slug))

/-- The permission-locked field writes of `update_bundle` (lines 550-566),
applied only for owners/managers.  The source mutates the row field by
field; the fields are independent, so the sequence is one record update. -/
def applyLockedFields (data : BundleUpdate) (slugChange : Bool) (b : BundleDrop) : BundleDrop :=
  { b with
    accessLevel := if data.accessLevel.isSome then data.accessLevel.getD b.accessLevel
                   else b.accessLevel
    slug := if slugChange then data.customSlug.getD b.slug else b.slug
    password := if optStrTruthy data.password then some (sha256hex (data.password.getD ""))
                else b.password
    maxClicks := if data.maxClicks.isSome then data.maxClicks else b.maxClicks
    expiresAt := if data.expiresAt.isSome then data.expiresAt else b.expiresAt
    isCloaked := if data.isCloaked.isSome then data.isCloaked.getD b.isCloaked else b.isCloaked }

/-- The content field writes of `update_bundle` (lines 569-581), applied
for every caller that may edit content. -/
def applyContentFields (data : BundleUpdate) (b : BundleDrop) : BundleDrop :=
  { b with
    title := if optStrTruthy data.title then data.title.getD b.title else b.title
    description := if data.description.isSome then data.description else b.description
    items := if data.items.isSome then data.items.getD b.items else b.items
    themeColor := if optStrTruthy data.themeColor then data.themeColor.getD b.themeColor
                  else b.themeColor
    bgColor := if optStrTruthy data.bgColor then data.bgColor.getD b.bgColor else b.bgColor
    textColor := if optStrTruthy data.textColor then data.textColor.getD b.textColor
                 else b.textColor
    titleColor := if optStrTruthy data.titleColor then data.titleColor.getD b.titleColor
                  else b.titleColor
    cardColor := if optStrTruthy data.cardColor then data.cardColor.getD b.cardColor
                 else b.cardColor
    metaTitle := if data.metaTitle.isSome then data.metaTitle else b.metaTitle
    metaDescription := if data.metaDescription.isSome then data.metaDescription
                       else b.metaDescription
    bgImage := if data.bgImage.isSome then data.bgImage else b.bgImage
    profileImage := if data.profileImage.isSome then data.profileImage else b.profileImage }

/-- The token backfill at the end of `update_bundle` (lines 584-587); the
random `secrets.token_urlsafe(16)` values are passed in. -/
def ensureTokens (fresh1 fresh2 : String) (b : BundleDrop) : BundleDrop :=
  { b with
    managerToken := if !(optStrTruthy b.managerToken) then some fresh1 else b.managerToken
    analystToken := if !(optStrTruthy b.analystToken) then some fresh2 else b.analystToken }

inductive UpdateError where
  | studioNotFound
  | unauthorized
  | slugConflict
deriving Repr, DecidableEq

/-- Line 541 of `app/main.py`: `role in ["owner", "manager"] or (not role
and bundle_obj.access_level == "edit")`. -/
def canEditCode (role : Option String) (accessLevel : String) : Bool :=
  role == some "owner" || role == some "manager"
    || (!(optStrTruthy role) && accessLevel == "edit")

/-- Line 548: `role in ["owner", "manager"]`. -/
def isOwnerOrManager (role : Option String) : Bool :=
  role == some "owner" || role == some "manager"

/-- `update_bundle` (`app/main.py` lines 502-596): role resolution, the
`can_edit` gate, permission-locked writes for owners/managers, content
writes for all editors, token backfill.  Returns the updated row and the
resolved role. -/
def update_bundle (store : Store) (collabs : List Collab) (userId? : Option Nat)
    (slug : String) (data : BundleUpdate) (fresh1 fresh2 : String) :
    Except UpdateError (BundleDrop × Option String) :=
  match store.bundles.find? (fun x => x.slug == slug) with
  | none => .error .studioNotFound
  | some b =>
    let role := resolveBundleRole userId? b collabs
    if !(canEditCode role b.accessLevel) then .error .unauthorized
    else
      let isOM := isOwnerOrManager role
      let slugChange := isOM && optStrTruthy data.customSlug && !(data.customSlug == some slug)
      if slugChange && slugTaken store (data.customSlug.getD "") then .error .slugConflict
      else
        let b1 := if isOM then applyLockedFields data slugChange b else b
        .ok (ensureTokens fresh1 fresh2 (applyContentFields data b1), role)

/-- The claim's wording of the edit permission: role owner or manager, or
no/viewer role on a bundle whose access level is "edit". -/
def can_edit_content_spec (role : Option String) (accessLevel : String) : Bool :=
  role == some "owner" || role == some "manager" || (role == none && accessLevel == "edit")

theorem applyContentFields_locked (data : BundleUpdate) (b : BundleDrop) :
    (applyContentFields data b).accessLevel = b.accessLevel
    ∧ (applyContentFields data b).slug = b.slug
    ∧ (applyContentFields data b).password = b.password
    ∧ (applyContentFields data b).maxClicks = b.maxClicks
    ∧ (applyContentFields data b).expiresAt = b.expiresAt
    ∧ (applyContentFields data b).isCloaked = b.isCloaked :=
  ⟨rfl, rfl, rfl, rfl, rfl, rfl⟩

theorem ensureTokens_locked (f1 f2 : String) (b : BundleDrop) :
    (ensureTokens f1 f2 b).accessLevel = b.accessLevel
    ∧ (ensureTokens f1 f2 b).slug = b.slug
    ∧ (ensureTokens f1 f2 b).password = b.password
    ∧ (ensureTokens f1 f2 b).maxClicks = b.maxClicks
    ∧ (ensureTokens f1 f2 b).expiresAt = b.expiresAt
    ∧ (ensureTokens f1 f2 b).isCloaked = b.isCloaked :=
  ⟨rfl, rfl, rfl, rfl, rfl, rfl⟩

/-- Under the documented role values, the resolver yields only no role,
owner, manager or analyst. -/
theorem resolveBundleRole_cases (userId? : Option Nat) (b : BundleDrop) (collabs : List Collab)
    (hwf : ∀ c ∈ collabs, c.role = "manager" ∨ c.role = "analyst") :
    resolveBundleRole userId? b collabs = none
    ∨ resolveBundleRole userId? b collabs = some "owner"
    ∨ resolveBundleRole userId? b collabs = some "manager"
    ∨ resolveBundleRole userId? b collabs = some "analyst" := by
  unfold resolveBundleRole
  by_cases hs : (!optMem b.userId (eligibleOwnerIds userId? collabs) && optNatTruthy userId?) = true
  · simp only [hs, if_true]
    cases hfind : collabs.find? fun c =>
        some c.collaboratorId == userId? && c.bundleId == some b.id with
    | none =>
      by_cases h1 : (b.userId == userId?) = true <;>
        by_cases h2 : optMem b.userId (eligibleOwnerIds userId? collabs) = true <;>
          simp [h1, h2]
    | some c =>
      have hmem : c ∈ collabs := List.mem_of_find?_eq_some hfind
      rcases hwf c hmem with h | h <;> simp [h]
  · simp only [hs, if_false]
    by_cases h1 : (b.userId == userId?) = true <;>
      by_cases h2 : optMem b.userId (eligibleOwnerIds userId? collabs) = true <;>
        simp [h1, h2]

/-- C5: `update_bundle` rejects as not-authorized exactly when the claim's
`can_edit_content` formula is false for the resolved role, and an accepted
update by a caller who is not owner or manager leaves every
permission-locked field (access level, slug, password, cap, expiry, cloak
flag) unchanged. -/
theorem c5_update_bundle_auth (store : Store) (collabs : List Collab) (userId? : Option Nat)
    (slug : String) (data : BundleUpdate) (f1 f2 : String) (b : BundleDrop)
    (hfind : store.bundles.find? (fun x => x.slug == slug) = some b)
    (hwf : ∀ c ∈ collabs, c.role = "manager" ∨ c.role = "analyst") :
    (update_bundle store collabs userId? slug data f1 f2 = Except.error UpdateError.unauthorized
      ↔ can_edit_content_spec (resolveBundleRole userId? b collabs) b.accessLevel = false)
    ∧ (∀ b' r, update_bundle store collabs userId? slug data f1 f2 = Except.ok (b', r) →
        resolveBundleRole userId? b collabs ≠ some "owner" →
        resolveBundleRole userId? b collabs ≠ some "manager" →
        b'.accessLevel = b.accessLevel ∧ b'.slug = b.slug ∧ b'.password = b.password
        ∧ b'.maxClicks = b.maxClicks ∧ b'.expiresAt = b.expiresAt
        ∧ b'.isCloaked = b.isCloaked) := by
  rcases resolveBundleRole_cases userId? b collabs hwf with hr | hr | hr | hr
  · constructor
    · simp only [update_bundle, hfind]
      by_cases ha : (b.accessLevel == "edit") = true <;>
        simp [hr, ha, canEditCode, isOwnerOrManager, can_edit_content_spec, optStrTruthy]
    · intro b' r hok hno hnm
      simp only [update_bundle, hfind] at hok
      by_cases ha : (b.accessLevel == "edit") = true
      · simp [hr, ha, canEditCode, isOwnerOrManager, optStrTruthy] at hok
        obtain ⟨hb', -⟩ := hok
        subst hb'
        exact ⟨rfl, rfl, rfl, rfl, rfl, rfl⟩
      · simp [hr, ha, canEditCode, isOwnerOrManager, optStrTruthy] at hok
  · constructor
    · simp only [update_bundle, hfind]
      simp only [hr]
      simp [canEditCode, can_edit_content_spec]
      split <;> simp
    · intro b' r hok hno hnm
      exact absurd hr hno
  · constructor
    · simp only [update_bundle, hfind]
      simp only [hr]
      simp [canEditCode, can_edit_content_spec]
      split <;> simp
    · intro b' r hok hno hnm
      exact absurd hr hnm
  · constructor
    · simp only [update_bundle, hfind]
      simp [hr, canEditCode, can_edit_content_spec, optStrTruthy]
    · intro b' r hok hno hnm
      simp only [update_bundle, hfind] at hok
      simp [hr, canEditCode, optStrTruthy] at hok

def b5 : BundleDrop :=
  { id := 1, userId := some 42, slug := "sb5", title := "T5", accessLevel := "edit",
    managerToken := some "m", analystToken := some "a" }

def store5 : Store := { bundles := [b5] }

def data5 : BundleUpdate := { accessLevel := some "restricted", title := some "New" }

/-- C5 witness: an anonymous caller on an "edit" bundle is accepted, may
change the title, and cannot move the access level even though the patch
asks for it. -/
theorem c5_update_bundle_auth_witness :
    (update_bundle store5 [] none "sb5" data5 "f1" "f2" = Except.error UpdateError.unauthorized
      ↔ can_edit_content_spec (resolveBundleRole none b5 []) b5.accessLevel = false)
    ∧ update_bundle store5 [] none "sb5" data5 "f1" "f2"
        = Except.ok ({ b5 with title := "New" }, none) := by
  have h := c5_update_bundle_auth store5 [] none "sb5" data5 "f1" "f2" b5 (by decide) (by simp)
  exact ⟨h.1, by rfl⟩

/-! ## Token join (`join_bundle`, `app/main.py` lines 598-637) -/

inductive JoinOutcome where
  | authRequired
  | studioNotFound
  | invalidToken
  | alreadyJoined
  | joined (role : String)
deriving Repr, DecidableEq

/-- `join_bundle`: authentication, bundle lookup, token match
(manager token first), duplicate-membership check, row insertion.  The
inserted owner id copies the bundle's owner column (non-null in the
database; the model defaults an absent owner to 0). -/
def join_bundle (store : Store) (collabs : List Collab) (userId? : Option Nat)
    (slug token : String) : JoinOutcome × List Collab :=
  match userId? with
  | none => (.authRequired, collabs)
  | some uid =>
    match store.bundles.find? (fun x => x.slug == slug) with
    | none => (.studioNotFound, collabs)
    | some b =>
      let role? : Option String :=
        if some token == b.managerToken then some "manager"
        else if some token == b.analystToken then some "analyst"
        else none
      match role? with
      | none => (.invalidToken, collabs)
      | some r =>
        match collabs.find? (fun c => c.collaboratorId == uid && c.bundleId == some b.id) with
        | some _ => (.alreadyJoined, collabs)
        | none =>
          (.joined r,
            collabs ++ [{ ownerId := b.userId.getD 0, collaboratorId := uid,
                          bundleId := some b.id, role := r }])

/-- C8: joining a bundle by token fails with invalid-token (creating no
row) when the token matches neither stored token; with a matching token
and no existing membership it appends exactly one bundle-scoped row whose
role is manager for the manager token and analyst for the analyst token;
with a matching token and an existing membership it reports the existing
membership and appends nothing. -/
theorem c8_join_token (store : Store) (collabs : List Collab) (uid : Nat) (slug token : String)
    (b : BundleDrop)
    (hfind : store.bundles.find? (fun x => x.slug == slug) = some b)
    (hdistinct : b.managerToken ≠ b.analystToken) :
    ((some token ≠ b.managerToken ∧ some token ≠ b.analystToken) →
        join_bundle store collabs (some uid) slug token = (.invalidToken, collabs))
    ∧ (some token = b.managerToken →
        collabs.find? (fun c => c.collaboratorId == uid && c.bundleId == some b.id) = none →
        join_bundle store collabs (some uid) slug token
          = (.joined "manager",
             collabs ++ [{ ownerId := b.userId.getD 0, collaboratorId := uid,
                           bundleId := some b.id, role := "manager" }]))
    ∧ (some token = b.analystToken →
        collabs.find? (fun c => c.collaboratorId == uid && c.bundleId == some b.id) = none →
        join_bundle store collabs (some uid) slug token
          = (.joined "analyst",
             collabs ++ [{ ownerId := b.userId.getD 0, collaboratorId := uid,
                           bundleId := some b.id, role := "analyst" }]))
    ∧ ((some token = b.managerToken ∨ some token = b.analystToken) →
        (collabs.find? (fun c => c.collaboratorId == uid && c.bundleId == some b.id)).isSome
          = true →
        join_bundle store collabs (some uid) slug token = (.alreadyJoined, collabs)) := by
  refine ⟨?_, ?_, ?_, ?_⟩
  · rintro ⟨hm, ha⟩
    simp only [join_bundle, hfind]
    simp [hm, ha]
  · intro hm hnone
    simp only [join_bundle, hfind]
    simp [← hm, hnone]
  · intro ha hnone
    have hm : ¬ some token = b.managerToken := by
      intro hm
      exact hdistinct (hm ▸ ha ▸ rfl)
    simp only [join_bundle, hfind]
    simp [hm, ← ha, hnone]
  · intro hmatch hsome
    obtain ⟨c, hc⟩ := Option.isSome_iff_exists.mp hsome
    simp only [join_bundle, hfind]
    rcases hmatch with hm | ha
    · simp [← hm, hc]
    · by_cases hm : (some token == b.managerToken) = true <;> simp [hm, ← ha, hc]

def b8 : BundleDrop :=
  { id := 10, userId := some 1, slug := "b8", title := "T8",
    managerToken := some "mt1", analystToken := some "at1" }

def store8 : Store := { bundles := [b8] }

/-- C8 witness: presenting the manager token on a bundle with no prior
membership creates exactly one manager-role collaboration row. -/
theorem c8_join_token_witness :
    join_bundle store8 [] (some 7) "b8" "mt1"
      = (.joined "manager",
         [{ ownerId := 1, collaboratorId := 7, bundleId := some 10, role := "manager" }]) := by
  have h := c8_join_token store8 [] 7 "b8" "mt1" b8 (by decide) (by decide)
  simpa using h.2.1 (by decide) (by decide)

/-! ## Drop creation (`shorten_url`, `create_bundle`) -/

inductive CreateError where
  | slugConflict
deriving Repr, DecidableEq

/-- The `URLCreate` request schema. -/
structure URLCreate where
  longUrl : String
  customSlug : Option String := none
  maxClicks : Option Nat := none
  expiresIn : Option Int := none
  expiresAt : Option Int := none
  password : Option String := none
  metaTitle : Option String := none
  metaDescription : Option String := none
  isCloaked : Bool := false
deriving Repr, DecidableEq

/-- `shorten_url` (`app/main.py` lines 651-701): a caller-supplied slug is
checked against both tables; an absent one is auto-assigned by encoding
the new row id, with no conflict check. -/
def shorten_url (store : Store) (data : URLCreate) (userId? : Option Nat) (now : Int) :
    Except CreateError (URLDrop × Store) :=
  let expiresAt := if data.expiresAt == none && optIntTruthy data.expiresIn
    then some (now + data.expiresIn.getD 0) else data.expiresAt
  let hashed := if optStrTruthy data.password then some (sha256hex (data.password.getD ""))
    else none
  if optStrTruthy data.customSlug then
    let s := data.customSlug.getD ""
    if (store.urls.any (fun u => u.slug == s)) || (store.bundles.any (fun x => x.slug == s)) then
      .error .slugConflict
    else
      let u : URLDrop :=
        { id := store.nextUrlId, userId := userId?, longUrl := data.longUrl, slug := s,
          clicks := 0, isCloaked := data.isCloaked, maxClicks := data.maxClicks,
          expiresAt := expiresAt, password := hashed, metaTitle := data.metaTitle,
          metaDescription := data.metaDescription }
      .ok (u, { store with urls := store.urls ++ [u], nextUrlId := store.nextUrlId + 1 })
  else
    let u : URLDrop :=
      { id := store.nextUrlId, userId := userId?, longUrl := data.longUrl,
        slug := encode store.nextUrlId, clicks := 0, isCloaked := data.isCloaked,
        maxClicks := data.maxClicks, expiresAt := expiresAt, password := hashed,
        metaTitle := data.metaTitle, metaDescription := data.metaDescription }
    .ok (u, { store with urls := store.urls ++ [u], nextUrlId := store.nextUrlId + 1 })

/-- The `BundleCreate` request schema. -/
structure BundleCreate where
  title : String
  description : Option String := none
  items : List BundleItem := []
  themeColor : String := "#00f2ff"
  bgColor : String := "#0a0a0a"
  textColor : String := "#888888"
  titleColor : String := "#ffffff"
  cardColor : String := "rgba(255,255,255,0.05)"
  bgImage : Option String := none
  profileImage : Option String := none
  customSlug : Option String := none
  maxClicks : Option Nat := none
  expiresIn : Option Int := none
  expiresAt : Option Int := none
  password : Option String := none
  metaTitle : Option String := none
  metaDescription : Option String := none
  isCloaked : Bool := false
deriving Repr, DecidableEq

/-- `create_bundle` (`app/main.py` lines 703-749): same slug policy as
`shorten_url`, with auto slugs prefixed "b-"; `expires_in`, when truthy,
overrides `expires_at` here. -/
def create_bundle (store : Store) (data : BundleCreate) (userId? : Option Nat) (now : Int)
    (freshM freshA : String) : Except CreateError (BundleDrop × Store) :=
  let expiresAt := if optIntTruthy data.expiresIn then some (now + data.expiresIn.getD 0)
    else data.expiresAt
  let mk : String → BundleDrop := fun s =>
    { id := store.nextBundleId, userId := userId?, slug := s, title := data.title,
      description := data.description, items := data.items, themeColor := data.themeColor,
      bgColor := data.bgColor, textColor := data.textColor, titleColor := data.titleColor,
      cardColor := data.cardColor, bgImage := data.bgImage, profileImage := data.profileImage,
      accessLevel := "restricted", clicks := 0, isCloaked := data.isCloaked,
      maxClicks := data.maxClicks, expiresAt := expiresAt,
      password := if optStrTruthy data.password then some (sha256hex (data.password.getD ""))
                  else none,
      metaTitle := data.metaTitle, metaDescription := data.metaDescription,
      managerToken := some freshM, analystToken := some freshA }
  if optStrTruthy data.customSlug then
    let s := data.customSlug.getD ""
    if (store.urls.any (fun u => u.slug == s)) || (store.bundles.any (fun x => x.slug == s)) then
      .error .slugConflict
    else
      let b := mk s
      let store' := { store with bundles := store.bundles ++ [b],
                                 nextBundleId := store.nextBundleId + 1 }
      .ok (b, store')
  else
    let b := mk ("b-" ++ encode store.nextBundleId)
    let store' := { store with bundles := store.bundles ++ [b],
                               nextBundleId := store.nextBundleId + 1 }
    .ok (b, store')

def bundleData7 : BundleCreate := { title := "B7", customSlug := some (encode 1) }

def b7 : BundleDrop :=
  { id := 1, slug := encode 1, title := "B7", managerToken := some "m", analystToken := some "a" }

def store7 : Store := { bundles := [b7], nextBundleId := 2 }

def urlData7 : URLCreate := { longUrl := "https://example.com" }

def u7 : URLDrop := { id := 1, longUrl := "https://example.com", slug := encode 1 }

/-- C7: the slug-uniqueness invariant is violated by the auto-assignment
path.  A bundle is created with the custom slug `encode 1`; a subsequent
URL creation with no custom slug auto-assigns `encode 1` for row id 1
without any conflict check, and both drops are accepted with the same
slug. -/
theorem c7_slug_collision :
    create_bundle { } bundleData7 none 0 "m" "a" = Except.ok (b7, store7)
    ∧ shorten_url store7 urlData7 none 0
        = Except.ok (u7, { store7 with urls := [u7], nextUrlId := 2 })
    ∧ u7.slug = b7.slug
    ∧ (store7.bundles.any (fun x => x.slug == u7.slug)) = true := by
  refine ⟨by rfl, by rfl, by rfl, by decide⟩

/-! ## Click analytics (`get_stats`, `app/main.py` lines 759-796) -/

/-- A `clicks` row. -/
structure ClickRow where
  urlId : Option Nat := none
  bundleId : Option Nat := none
  timestamp : Int := 0
  referer : Option String := none
  deviceType : Option String := none
deriving Repr, DecidableEq

/-- `date_trunc('hour', ts)` on a timestamp in seconds. -/
def truncHour (t : Int) : Int := t - t % 3600

/-- One step of SQL `GROUP BY` aggregation: bump the count of a key. -/
def bumpKey [BEq α] (acc : List (α × Nat)) (k : α) : List (α × Nat) :=
  match acc with
  | [] => [(k, 1)]
  | (k', n) :: rest => if k' == k then (k', n + 1) :: rest else (k', n) :: bumpKey rest k

/-- `GROUP BY` with counts.  A grouped query without `ORDER BY` returns
its groups in an unspecified order; the model fixes first-occurrence
order, one legitimate instance of that freedom. -/
def groupCounts [BEq α] (l : List α) : List (α × Nat) := l.foldl bumpKey []

def insertAscBy (x : Int × Nat) : List (Int × Nat) → List (Int × Nat)
  | [] => [x]
  | y :: ys => if x.1 ≤ y.1 then x :: y :: ys else y :: insertAscBy x ys

/-- Ascending sort by key, the `ORDER BY h` of the time-series query. -/
def sortAsc (l : List (Int × Nat)) : List (Int × Nat) := l.foldr insertAscBy []

structure StatsReport where
  title : String
  totalClicks : Nat
  clicksHistory : List (Int × Nat)
  deviceStats : List (String × Nat)
  topReferers : List (String × Nat)
deriving Repr, DecidableEq

inductive StatsError where
  | notFound
deriving Repr, DecidableEq

/-- The three aggregation queries of `get_stats` over the clicks of one
drop: hour-truncated history ordered ascending, device breakdown with
`Unknown` for null, and the referrer groups with `LIMIT 5` and no
ordering (null referer shown as `Direct`). -/
def mkReport (clicks : List ClickRow) (isBundle : Bool) (objId : Nat) (title : String)
    (total : Nat) : StatsReport :=
  let rows := clicks.filter (fun c =>
    if isBundle then c.bundleId == some objId else c.urlId == some objId)
  { title := title,
    totalClicks := total,
    clicksHistory := sortAsc (groupCounts (rows.map (fun c => truncHour c.timestamp))),
    deviceStats := (groupCounts (rows.map (fun c => c.deviceType))).map
      (fun p => (p.1.getD "Unknown", p.2)),
    topReferers := ((groupCounts (rows.map (fun c => c.referer))).take 5).map
      (fun p => (p.1.getD "Direct", p.2)) }

/-- `get_stats`: bundle lookup first, then URL; a URL report is titled by
its slug (`getattr(obj, "title", obj.slug)`). -/
def get_stats (store : Store) (clicks : List ClickRow) (slug : String) :
    Except StatsError StatsReport :=
  match store.bundles.find? (fun x => x.slug == slug) with
  | some b => .ok (mkReport clicks true b.id b.title b.clicks)
  | none =>
    match store.urls.find? (fun u => u.slug == slug) with
    | none => .error .notFound
    | some u => .ok (mkReport clicks false u.id u.slug u.clicks)

def click9 (ref : String) : ClickRow := { urlId := some 1, referer := some ref }

def clicks9 : List ClickRow :=
  [click9 "r1", click9 "r2", click9 "r3", click9 "r4", click9 "r5"]
    ++ List.replicate 10 (click9 "r6")

def u9 : URLDrop := { id := 1, longUrl := "https://e.com", slug := "s9", clicks := 15 }

def store9 : Store := { urls := [u9] }

/-- C9: the referrer query takes five groups with no ordering by count, so
the referrer with the highest count ("r6", 10 clicks) is missing from the
returned buckets while five one-click referrers are reported. -/
theorem c9_top_referers_unordered :
    (get_stats store9 clicks9 "s9").map (fun rep => rep.topReferers)
      = Except.ok [("r1", 1), ("r2", 1), ("r3", 1), ("r4", 1), ("r5", 1)]
    ∧ (clicks9.filter (fun c => c.referer == some "r6")).length = 10 := by
  refine ⟨by rfl, by decide⟩

end KelalLink
